import Mathlib

/-!
Shallow embedding of `baselines/ppo/agent.py`, the PPO agent of the
lagom baselines.

Modelled parts:
* the numeric loss computations of `Agent.learn_one_update`
  (agent.py lines 112-153): importance ratio, clipped policy surrogate,
  clipped value regression;
* the advantage standardization of `Agent.learn` (lines 170-175);
* the epoch / minibatch driver and diagnostic aggregation of
  `Agent.learn` (lines 177-194) and the total-timestep counter
  (lines 88 and 182);
* `Agent.choose_action` (lines 95-110);
* the action-head dispatch of `Actor.__init__` (lines 31-54).

One-dimensional tensors of per-timestep scalars are `List ℝ`;
elementwise torch operations become `List.zipWith` / `List.map`, and
`.mean(0)` / `np.mean` become sum divided by length.  Neural-network
forward passes, the optimizers and the shuffling dataloader are external
collaborators of the modelled code (spec section 6); where the claims
only depend on how their results are threaded, they appear as abstract
state-transforming parameters.
-/

noncomputable section

/-- Mean of a 1-D tensor, as computed by tensor.mean() and np.mean:
sum divided by length. -/
def torchMean (xs : List ℝ) : ℝ := xs.sum / xs.length

/-- Scalar torch.clamp(x, lo, hi): clip x into the interval [lo, hi]. -/
def torchClamp (x lo hi : ℝ) : ℝ := min (max x lo) hi

/-- Embedding of agent.py line 121,
ratio = torch.exp(logprobs - old_logprobs): elementwise exponential of
the log-probability differences. -/
def prob_ratios (logprobs old_logprobs : List ℝ) : List ℝ :=
  List.zipWith (fun a b => Real.exp (a - b)) logprobs old_logprobs

/-- Embedding of agent.py lines 123-125,
policy_loss = -torch.min(ratio*old_As, torch.clamp(ratio, 1-eps, 1+eps)*old_As)
followed by policy_loss.mean(0): elementwise negated clipped surrogate,
then the mean. -/
def policy_loss (eps : ℝ) (logprobs old_logprobs old_As : List ℝ) : ℝ :=
  torchMean
    ((List.zipWith min
      (List.zipWith (· * ·) (prob_ratios logprobs old_logprobs) old_As)
      (List.zipWith (· * ·)
        ((prob_ratios logprobs old_logprobs).map
          (fun x => torchClamp x (1 - eps) (1 + eps))) old_As)).map
      (fun x => -x))

/-- The specification's formula for the policy loss (spec section 4.5
step 3, written from the spec's words, to be compared with the code's
`policy_loss`): -mean( min(ratio*A, clip(ratio, 1-eps, 1+eps)*A) ) with
ratio = exp(new_logprob - old_logprob) per timestep. -/
def spec_policy_loss (eps : ℝ) (logprobs old_logprobs old_As : List ℝ) : ℝ :=
  -torchMean (List.zipWith3
    (fun nl ol a =>
      min (Real.exp (nl - ol) * a)
          (torchClamp (Real.exp (nl - ol)) (1 - eps) (1 + eps) * a))
    logprobs old_logprobs old_As)

/-- Embedding of agent.py line 134,
clipped_Vs = old_Vs + torch.clamp(Vs - old_Vs, -eps, eps). -/
def clipped_Vs (eps : ℝ) (Vs old_Vs : List ℝ) : List ℝ :=
  List.zipWith (· + ·) old_Vs
    ((List.zipWith (· - ·) Vs old_Vs).map (fun d => torchClamp d (-eps) eps))

/-- Embedding of F.mse_loss(x, y, reduction=none): elementwise squared
error. -/
def mse_loss_none (xs ys : List ℝ) : List ℝ :=
  List.zipWith (fun x y => (x - y) ^ 2) xs ys

/-- Embedding of agent.py lines 134-137,
value_loss = torch.max(F.mse_loss(Vs, old_Qs, reduction=none),
F.mse_loss(clipped_Vs, old_Qs, reduction=none)) followed by
value_loss.mean(0). -/
def value_loss (eps : ℝ) (Vs old_Vs old_Qs : List ℝ) : ℝ :=
  torchMean (List.zipWith max
    (mse_loss_none Vs old_Qs)
    (mse_loss_none (clipped_Vs eps Vs old_Vs) old_Qs))

/-- The specification's formula for the value loss (spec section 4.5
step 4, written from the spec's words, to be compared with the code's
`value_loss`): mean( max( (V - Q)^2, (clip(V - old_V, -eps, eps) + old_V - Q)^2 ) ). -/
def spec_value_loss (eps : ℝ) (Vs old_Vs old_Qs : List ℝ) : ℝ :=
  torchMean (List.zipWith3
    (fun v ov q =>
      max ((v - q) ^ 2) ((torchClamp (v - ov) (-eps) eps + ov - q) ^ 2))
    Vs old_Vs old_Qs)

lemma sum_map_neg (xs : List ℝ) :
    (xs.map (fun x => -x)).sum = -xs.sum := by
  induction xs with
  | nil => simp
  | cons x xs ih => simp [ih]; ring

lemma torchMean_map_neg (xs : List ℝ) :
    torchMean (xs.map (fun x => -x)) = -torchMean xs := by
  simp [torchMean, sum_map_neg, neg_div]

lemma policy_surrogate_eq (eps : ℝ) :
    ∀ (lp olp A : List ℝ),
      List.zipWith min
        (List.zipWith (· * ·) (prob_ratios lp olp) A)
        (List.zipWith (· * ·)
          ((prob_ratios lp olp).map (fun x => torchClamp x (1 - eps) (1 + eps))) A)
      = List.zipWith3
          (fun nl ol a =>
            min (Real.exp (nl - ol) * a)
                (torchClamp (Real.exp (nl - ol)) (1 - eps) (1 + eps) * a))
          lp olp A := by
  intro lp
  induction lp with
  | nil => intro olp A; simp [prob_ratios, List.zipWith3]
  | cons x xs ih =>
    intro olp A
    cases olp with
    | nil => simp [prob_ratios, List.zipWith3]
    | cons y ys =>
      cases A with
      | nil => simp [prob_ratios, List.zipWith3]
      | cons a as =>
        simpa [prob_ratios, List.zipWith3] using ih ys as

/-- C3: for every minibatch, the policy loss computed by the update step
(agent.py lines 121-125) equals the spec formula
-mean( min(ratio*A, clip(ratio, 1-eps, 1+eps)*A) ) with
ratio = exp(new_logprob - old_logprob). -/
theorem policy_loss_matches_spec_formula (eps : ℝ)
    (logprobs old_logprobs old_As : List ℝ) :
    policy_loss eps logprobs old_logprobs old_As
      = spec_policy_loss eps logprobs old_logprobs old_As := by
  unfold policy_loss spec_policy_loss
  rw [policy_surrogate_eq, torchMean_map_neg]

lemma value_penalties_eq (eps : ℝ) :
    ∀ (Vs old_Vs old_Qs : List ℝ),
      List.zipWith max
        (mse_loss_none Vs old_Qs)
        (mse_loss_none (clipped_Vs eps Vs old_Vs) old_Qs)
      = List.zipWith3
          (fun v ov q =>
            max ((v - q) ^ 2) ((torchClamp (v - ov) (-eps) eps + ov - q) ^ 2))
          Vs old_Vs old_Qs := by
  intro Vs
  induction Vs with
  | nil => intro old_Vs old_Qs; simp [mse_loss_none, clipped_Vs, List.zipWith3]
  | cons v vs ih =>
    intro old_Vs old_Qs
    cases old_Vs with
    | nil => simp [mse_loss_none, clipped_Vs, List.zipWith3]
    | cons ov ovs =>
      cases old_Qs with
      | nil => simp [mse_loss_none, clipped_Vs, List.zipWith3]
      | cons q qs =>
        have harith : (ov + torchClamp (v - ov) (-eps) eps - q) ^ 2
            = (torchClamp (v - ov) (-eps) eps + ov - q) ^ 2 := by
          ring_nf
        simpa [mse_loss_none, clipped_Vs, List.zipWith3, harith] using ih ovs qs

/-- C4: for every minibatch, the value loss computed by the update step
(agent.py lines 134-137) equals the spec formula
mean( max( (V - Q)^2, (clip(V - old_V, -eps, eps) + old_V - Q)^2 ) ). -/
theorem value_loss_matches_spec_formula (eps : ℝ)
    (Vs old_Vs old_Qs : List ℝ) :
    value_loss eps Vs old_Vs old_Qs = spec_value_loss eps Vs old_Vs old_Qs := by
  unfold value_loss spec_value_loss
  rw [value_penalties_eq]

lemma prob_ratios_self (lp : List ℝ) :
    prob_ratios lp lp = List.replicate lp.length 1 := by
  induction lp with
  | nil => rfl
  | cons x xs ih =>
    show Real.exp (x - x) :: prob_ratios xs xs = _
    rw [sub_self, Real.exp_zero, ih]
    rfl

lemma zipWith_mul_replicate_one (A : List ℝ) :
    List.zipWith (· * ·) (List.replicate A.length 1) A = A := by
  induction A with
  | nil => simp
  | cons a as ih => simp [List.replicate, ih]

lemma zipWith_min_self (A : List ℝ) : List.zipWith min A A = A := by
  induction A with
  | nil => simp
  | cons a as ih => simp [ih]

/-- Unbiased sample variance underlying tensor.std(): sum of squared
deviations from the mean, divided by (n - 1). -/
def torchVar (xs : List ℝ) : ℝ :=
  ((xs.map (fun x => (x - torchMean xs) ^ 2)).sum) / ((xs.length : ℝ) - 1)

/-- Embedding of tensor.std(): square root of the unbiased sample
variance. -/
def torchStd (xs : List ℝ) : ℝ := Real.sqrt (torchVar xs)

/-- Embedding of agent.py lines 171-173: the per-trajectory advantage
lists are flattened by concatenation (np.concatenate) into one batch
and, when the agent.standardize_adv flag is set, standardized over the
whole flattened batch: As = (As - As.mean()) / (As.std() + 1e-8). -/
def learn_advantages (standardize_adv : Bool) (As : List (List ℝ)) : List ℝ :=
  if standardize_adv then
    As.flatten.map (fun a => (a - torchMean As.flatten) / (torchStd As.flatten + 1 / 10 ^ 8))
  else As.flatten

lemma sum_map_sub_const (xs : List ℝ) (b : ℝ) :
    (xs.map (fun x => x - b)).sum = xs.sum - xs.length * b := by
  induction xs with
  | nil => simp
  | cons x t ih => simp [ih]; ring

lemma sum_map_div (xs : List ℝ) (c : ℝ) :
    (xs.map (fun x => x / c)).sum = xs.sum / c := by
  induction xs with
  | nil => simp
  | cons x t ih => simp [ih]; ring

lemma sum_map_sub_mean (xs : List ℝ) (hx : xs ≠ []) :
    (xs.map (fun x => x - torchMean xs)).sum = 0 := by
  have hn : (xs.length : ℝ) ≠ 0 := by
    simpa using fun h => hx (List.length_eq_zero.mp h)
  rw [sum_map_sub_const, torchMean, mul_div_cancel₀ _ hn, sub_self]

lemma map_standardized_split (xs : List ℝ) (b c : ℝ) :
    xs.map (fun a => (a - b) / c)
      = (xs.map (fun a => a - b)).map (fun y => y / c) := by
  rw [List.map_map]
  rfl

lemma torchMean_standardized (xs : List ℝ) (c : ℝ) :
    torchMean (xs.map (fun a => (a - torchMean xs) / c)) = 0 := by
  rcases eq_or_ne xs [] with h | h
  · subst h; simp [torchMean]
  · rw [torchMean, map_standardized_split, sum_map_div, sum_map_sub_mean xs h]
    simp

lemma torchVar_nonneg (xs : List ℝ) (hx : xs ≠ []) : 0 ≤ torchVar xs := by
  unfold torchVar
  have h1 : (0 : ℝ) ≤ (xs.map (fun x => (x - torchMean xs) ^ 2)).sum :=
    List.sum_nonneg (by
      intro y hy
      rcases List.mem_map.mp hy with ⟨a, _, rfl⟩
      positivity)
  have h2 : (0 : ℝ) ≤ (xs.length : ℝ) - 1 := by
    have h3 : 1 ≤ xs.length := List.length_pos.mpr hx
    have h4 : (1 : ℝ) ≤ (xs.length : ℝ) := by exact_mod_cast h3
    linarith
  exact div_nonneg h1 h2

lemma torchStd_standardized (xs : List ℝ) (c : ℝ) (hc : 0 < c) (hx : xs ≠ []) :
    torchStd (xs.map (fun a => (a - torchMean xs) / c)) = torchStd xs / c := by
  set ys := xs.map (fun a => (a - torchMean xs) / c) with hys
  have hmean : torchMean ys = 0 := torchMean_standardized xs c
  have hlen : ys.length = xs.length := by simp [hys]
  have hsq : ys.map (fun y => (y - torchMean ys) ^ 2)
      = (xs.map (fun a => (a - torchMean xs) ^ 2)).map (fun z => z / c ^ 2) := by
    rw [hmean, hys, List.map_map, List.map_map]
    refine List.map_congr_left (fun a _ => ?_)
    simp only [Function.comp]
    rw [sub_zero, div_pow]
  have hvar : torchVar ys = torchVar xs / c ^ 2 := by
    unfold torchVar
    rw [hsq, sum_map_div, hlen, div_right_comm]
  unfold torchStd
  rw [hvar, Real.sqrt_div (torchVar_nonneg xs hx), Real.sqrt_sq hc.le]

/-- C6: when advantage standardization is enabled, learn standardizes
the advantages over the entire flattened batch (concatenated across
trajectories): the standardized batch has mean exactly 0 and standard
deviation within 1e-8 / std(A) of 1; when the flag is disabled the
flattened advantages are left unscaled. -/
theorem standardize_adv_zero_mean_unit_std (As : List (List ℝ))
    (hstd : 0 < torchStd As.flatten) :
    learn_advantages false As = As.flatten ∧
      torchMean (learn_advantages true As) = 0 ∧
      |torchStd (learn_advantages true As) - 1|
        ≤ (1 / 10 ^ 8) / torchStd As.flatten := by
  have hne : As.flatten ≠ [] := by
    intro h
    rw [h] at hstd
    simp [torchStd, torchVar, torchMean] at hstd
  have hc : (0 : ℝ) < torchStd As.flatten + 1 / 10 ^ 8 := by positivity
  have hunf : learn_advantages true As
      = As.flatten.map (fun a =>
          (a - torchMean As.flatten) / (torchStd As.flatten + 1 / 10 ^ 8)) := rfl
  refine ⟨rfl, ?_, ?_⟩
  · rw [hunf]
    exact torchMean_standardized As.flatten (torchStd As.flatten + 1 / 10 ^ 8)
  · have h1 : torchStd (learn_advantages true As)
        = torchStd As.flatten / (torchStd As.flatten + 1 / 10 ^ 8) := by
      rw [hunf]
      exact torchStd_standardized As.flatten (torchStd As.flatten + 1 / 10 ^ 8) hc hne
    rw [h1]
    have h2 : torchStd As.flatten / (torchStd As.flatten + 1 / 10 ^ 8) - 1
        = -((1 / 10 ^ 8) / (torchStd As.flatten + 1 / 10 ^ 8)) := by
      field_simp
    rw [h2, abs_neg, abs_of_nonneg (by positivity)]
    gcongr
    linarith

/-- Witness for C6 at the concrete two-trajectory batch [[0, 1], [2]],
whose flattened advantages [0, 1, 2] have mean 1 and sample standard
deviation exactly 1. -/
theorem standardize_adv_zero_mean_unit_std_witness :
    0 < torchStd (([[(0 : ℝ), 1], [2]] : List (List ℝ)).flatten) ∧
      (learn_advantages false [[(0 : ℝ), 1], [2]]
          = ([[(0 : ℝ), 1], [2]] : List (List ℝ)).flatten ∧
        torchMean (learn_advantages true [[(0 : ℝ), 1], [2]]) = 0 ∧
        |torchStd (learn_advantages true [[(0 : ℝ), 1], [2]]) - 1|
          ≤ (1 / 10 ^ 8) / torchStd (([[(0 : ℝ), 1], [2]] : List (List ℝ)).flatten)) := by
  have hjoin : (([[(0 : ℝ), 1], [2]] : List (List ℝ)).flatten) = [(0 : ℝ), 1, 2] := by
    simp
  have hmean : torchMean [(0 : ℝ), 1, 2] = 1 := by
    unfold torchMean
    norm_num
  have hvar : torchVar [(0 : ℝ), 1, 2] = 1 := by
    unfold torchVar
    rw [hmean]
    norm_num
  have hstd : 0 < torchStd (([[(0 : ℝ), 1], [2]] : List (List ℝ)).flatten) := by
    rw [hjoin]
    unfold torchStd
    rw [hvar, Real.sqrt_one]
    norm_num
  exact ⟨hstd, standardize_adv_zero_mean_unit_std [[(0 : ℝ), 1], [2]] hstd⟩

/-- C7: when the minibatch's old log-probabilities come from exactly the
current policy parameters (new log-probabilities equal the old ones),
the importance ratio is 1 at every timestep and the policy loss of
agent.py lines 121-125 reduces to -mean(A). -/
theorem ratio_one_policy_loss_neg_mean_adv (eps : ℝ) (lp A : List ℝ)
    (hlen : A.length = lp.length) (heps : 0 ≤ eps) :
    prob_ratios lp lp = List.replicate lp.length 1 ∧
      policy_loss eps lp lp A = -torchMean A := by
  refine ⟨prob_ratios_self lp, ?_⟩
  have hclamp : torchClamp 1 (1 - eps) (1 + eps) = 1 := by
    unfold torchClamp
    rw [max_eq_left (by linarith), min_eq_left (by linarith)]
  unfold policy_loss
  rw [prob_ratios_self lp, ← hlen]
  simp only [List.map_replicate, hclamp]
  rw [zipWith_mul_replicate_one, zipWith_min_self, torchMean_map_neg]

/-- Configuration slice read by the epoch driver of Agent.learn:
train.num_epochs and agent.use_lr_scheduler. -/
structure Config where
  num_epochs : Nat
  use_lr_scheduler : Bool

/-- The eight per-minibatch diagnostic scalars returned by
Agent.learn_one_update (agent.py lines 144-153). -/
structure UpdateLog where
  policy_grad_norm : ℝ
  value_grad_norm : ℝ
  policy_loss : ℝ
  policy_entropy : ℝ
  value_loss : ℝ
  explained_variance : ℝ
  approx_kl : ℝ
  clip_frac : ℝ

/-- Embedding of the list comprehension
logs = [self.learn_one_update(data) for data in dataloader]
(agent.py line 180): run the update step on every minibatch in order,
threading the mutated agent state, and collect the per-minibatch
logs. -/
def runMinibatches {S MB L : Type} (step : S → MB → L × S) :
    S → List MB → List L × S
  | s, [] => ([], s)
  | s, mb :: mbs =>
    ((step s mb).1 :: (runMinibatches step (step s mb).2 mbs).1,
     (runMinibatches step (step s mb).2 mbs).2)

/-- Embedding of the epoch loop of agent.py lines 179-180, starting at
epoch index e with k epochs left: the Python variable logs is rebound on
every iteration, so only the most recent epoch's list survives, and
before the first iteration it is unassigned (none). batches e is the
minibatch sequence the freshly shuffled dataloader yields in epoch e. -/
def epochLoopFrom {S MB L : Type} (step : S → MB → L × S)
    (batches : Nat → List MB) :
    Nat → Nat → Option (List L) → S → Option (List L) × S
  | _, 0, logs, s => (logs, s)
  | e, k + 1, _, s =>
    epochLoopFrom step batches (e + 1) k
      (some (runMinibatches step s (batches e)).1)
      (runMinibatches step s (batches e)).2

/-- The epoch loop of agent.py lines 179-180: num_epochs epochs starting
from epoch 0 with the logs variable unassigned. -/
def epochLoop {S MB L : Type} (step : S → MB → L × S)
    (batches : Nat → List MB) (num_epochs : Nat) (s : S) :
    Option (List L) × S :=
  epochLoopFrom step batches 0 num_epochs none s

/-- Agent state after running k epochs of the epoch loop, starting at
epoch index e. -/
def epochStateFrom {S MB L : Type} (step : S → MB → L × S)
    (batches : Nat → List MB) : Nat → Nat → S → S
  | _, 0, s => s
  | e, k + 1, s =>
    epochStateFrom step batches (e + 1) k (runMinibatches step s (batches e)).2

/-- All per-minibatch logs of every epoch, in invocation order, starting
at epoch index e for k epochs: the collection claim C1 describes. -/
def allEpochLogsFrom {S MB L : Type} (step : S → MB → L × S)
    (batches : Nat → List MB) : Nat → Nat → S → List L
  | _, 0, _ => []
  | e, k + 1, s =>
    (runMinibatches step s (batches e)).1
      ++ allEpochLogsFrom step batches (e + 1) k (runMinibatches step s (batches e)).2

/-- Embedding of agent.py lines 186-193: aggregate each diagnostic
scalar by np.mean over a list of per-minibatch logs, in the code's
insertion order. -/
def aggregate (logs : List UpdateLog) : List (String × ℝ) :=
  [("policy_grad_norm", torchMean (logs.map UpdateLog.policy_grad_norm)),
   ("value_grad_norm", torchMean (logs.map UpdateLog.value_grad_norm)),
   ("policy_loss", torchMean (logs.map UpdateLog.policy_loss)),
   ("policy_entropy", torchMean (logs.map UpdateLog.policy_entropy)),
   ("value_loss", torchMean (logs.map UpdateLog.value_loss)),
   ("explained_variance", torchMean (logs.map UpdateLog.explained_variance)),
   ("approx_kl", torchMean (logs.map UpdateLog.approx_kl)),
   ("clip_frac", torchMean (logs.map UpdateLog.clip_frac))]

/-- Embedding of Agent.learn, agent.py lines 177-194, at the
epoch-driver level.  The update step learn_one_update appears as the
abstract state transformer step (its numeric content is modelled
separately above); trajLens are the lengths of the trajectories of D;
current_lr abstracts policy_lr_scheduler.get_lr().  The result is the
outcome of the call (the diagnostics mapping, or the uncaught NameError
raised when line 186 reads the never-assigned logs variable), the final
mutable network/optimizer state, and the new total_timestep counter,
which line 182 advances by the summed trajectory lengths before the
aggregation runs. -/
def learn {S MB : Type} (cfg : Config) (step : S → MB → UpdateLog × S)
    (batches : Nat → List MB) (trajLens : List Nat) (current_lr : ℝ)
    (s : S) (total_timestep : Nat) :
    Except String (List (String × ℝ)) × S × Nat :=
  match epochLoop step batches cfg.num_epochs s with
  | (none, s1) =>
    (Except.error "NameError: logs is not defined", s1,
      total_timestep + trajLens.sum)
  | (some logs, s1) =>
    (Except.ok
      (if cfg.use_lr_scheduler then
        ("current_lr", current_lr) :: aggregate logs
       else aggregate logs),
     s1, total_timestep + trajLens.sum)

/-- Embedding of agent.py line 88: the Agent's total-timestep counter is
initialized to zero at construction. -/
def init_total_timestep : Nat := 0

/-- Inputs of one learn call, for iterating learn: its configuration,
its update-step behaviour, the dataloader's per-epoch minibatches, the
trajectory lengths of its batch D, and the scheduler's learning rate. -/
structure LearnCall (S MB : Type) where
  cfg : Config
  step : S → MB → UpdateLog × S
  batches : Nat → List MB
  trajLens : List Nat
  current_lr : ℝ

/-- Iterate learn over a list of calls, threading the mutable agent
state and the total-timestep counter. -/
def runLearnCalls {S MB : Type} : List (LearnCall S MB) → S → Nat → S × Nat
  | [], s, tt => (s, tt)
  | c :: cs, s, tt =>
    runLearnCalls cs
      (learn c.cfg c.step c.batches c.trajLens c.current_lr s tt).2.1
      (learn c.cfg c.step c.batches c.trajLens c.current_lr s tt).2.2

lemma learn_total_timestep {S MB : Type} (cfg : Config)
    (step : S → MB → UpdateLog × S) (batches : Nat → List MB)
    (trajLens : List Nat) (lr : ℝ) (s : S) (tt : Nat) :
    (learn cfg step batches trajLens lr s tt).2.2 = tt + trajLens.sum := by
  unfold learn
  cases h : epochLoop step batches cfg.num_epochs s with
  | mk lo s1 => cases lo <;> simp

lemma runLearnCalls_timestep {S MB : Type} :
    ∀ (cs : List (LearnCall S MB)) (s : S) (tt : Nat),
      (runLearnCalls cs s tt).2 = tt + (cs.map (fun c => c.trajLens.sum)).sum := by
  intro cs
  induction cs with
  | nil => intro s tt; simp [runLearnCalls]
  | cons c cs ih =>
    intro s tt
    rw [runLearnCalls, ih, learn_total_timestep]
    simp [Nat.add_assoc]

/-- C5: the Agent's total-timestep counter starts at 0 (agent.py line
88); a single learn call advances it exactly once, by the sum of its
batch's trajectory lengths (line 182), irrespective of minibatch and
epoch configuration and outside the epoch loop; hence after N learn
calls with batches of summed lengths L1..LN it equals L1+...+LN. -/
theorem total_timestep_running_sum {S MB : Type} (cs : List (LearnCall S MB))
    (s : S) (cfg : Config) (step : S → MB → UpdateLog × S)
    (batches : Nat → List MB) (trajLens : List Nat) (lr : ℝ) (tt : Nat) :
    (learn cfg step batches trajLens lr s tt).2.2 = tt + trajLens.sum ∧
      (runLearnCalls cs s init_total_timestep).2
        = (cs.map (fun c => c.trajLens.sum)).sum := by
  refine ⟨learn_total_timestep cfg step batches trajLens lr s tt, ?_⟩
  rw [runLearnCalls_timestep]
  simp [init_total_timestep]

lemma epochLoopFrom_succ {S MB L : Type} (step : S → MB → L × S)
    (batches : Nat → List MB) :
    ∀ (k e : Nat) (logs : Option (List L)) (s : S),
      epochLoopFrom step batches e (k + 1) logs s
        = (some (runMinibatches step (epochStateFrom step batches e k s)
              (batches (e + k))).1,
           epochStateFrom step batches e (k + 1) s) := by
  intro k
  induction k with
  | zero =>
    intro e logs s
    simp [epochLoopFrom, epochStateFrom]
  | succ k ih =>
    intro e logs s
    rw [epochLoopFrom, ih]
    have he : e + 1 + k = e + (k + 1) := by omega
    rw [he]
    rfl

/-- C1 amended: the diagnostics mapping returned by learn aggregates
(arithmetic mean) the per-minibatch diagnostics of the final configured
epoch only: line 180 rebinds the logs variable each epoch, so earlier
epochs' minibatch logs do not enter the aggregation of lines 186-193. -/
theorem learn_aggregates_final_epoch_only {S MB : Type} (cfg : Config)
    (step : S → MB → UpdateLog × S) (batches : Nat → List MB)
    (trajLens : List Nat) (lr : ℝ) (s : S) (tt : Nat) (k : Nat)
    (hk : cfg.num_epochs = k + 1) :
    (learn cfg step batches trajLens lr s tt).1
      = Except.ok
          (if cfg.use_lr_scheduler then
            ("current_lr", lr)
              :: aggregate (runMinibatches step
                  (epochStateFrom step batches 0 k s) (batches k)).1
           else aggregate (runMinibatches step
                  (epochStateFrom step batches 0 k s) (batches k)).1) := by
  unfold learn epochLoop
  rw [hk, epochLoopFrom_succ]
  simp

/-- Per-minibatch log whose eight diagnostic scalars all equal x. -/
def constLog (x : ℝ) : UpdateLog := ⟨x, x, x, x, x, x, x, x⟩

/-- Concrete update-step behaviour used as input for closed instances:
the state counts the minibatch invocations so far and each invocation
logs its own index, so the diagnostics differ between epochs exactly as
they do once parameters move. -/
def countingStep (s : Nat) (_ : Unit) : UpdateLog × Nat := (constLog s, s + 1)

/-- Witness for C1 (amended) at a learn call with 2 configured epochs
and one minibatch per epoch of the counting step. -/
theorem learn_aggregates_final_epoch_only_witness :
    (Config.mk 2 false).num_epochs = 1 + 1 ∧
      (learn ⟨2, false⟩ countingStep (fun _ => [()]) [] 0 0 0).1
        = Except.ok
            (if (Config.mk 2 false).use_lr_scheduler then
              ("current_lr", 0)
                :: aggregate (runMinibatches countingStep
                    (epochStateFrom countingStep (fun _ => [()]) 0 1 0)
                    ((fun _ : Nat => [()]) 1)).1
             else aggregate (runMinibatches countingStep
                    (epochStateFrom countingStep (fun _ => [()]) 0 1 0)
                    ((fun _ : Nat => [()]) 1)).1) :=
  ⟨rfl, learn_aggregates_final_epoch_only ⟨2, false⟩ countingStep
    (fun _ => [()]) [] 0 0 0 1 rfl⟩

/-- C1 counterexample: a learn call with 2 configured epochs and one
minibatch per epoch, whose per-minibatch diagnostics differ between the
two epochs.  The returned aggregated diagnostics are not the arithmetic
means over every minibatch invocation of every epoch of the call: the
policy_loss diagnostic comes back as 1 (the mean over the final epoch
alone), not 1/2 (the mean over both epochs), refuting the claim as
stated. -/
theorem aggregate_all_epochs_counterexample :
    ¬ ((learn ⟨2, false⟩ countingStep (fun _ => [()]) [] 0 0 0).1
        = Except.ok (aggregate
            (allEpochLogsFrom countingStep (fun _ => [()]) 0 2 0))) := by
  intro h
  simp [learn, epochLoop, epochLoopFrom, runMinibatches, countingStep,
    aggregate, allEpochLogsFrom, constLog, torchMean] at h

/-- The eight aggregated diagnostic key names of agent.py lines
186-193, in insertion order. -/
def diagnostic_keys : List String :=
  ["policy_grad_norm", "value_grad_norm", "policy_loss", "policy_entropy",
   "value_loss", "explained_variance", "approx_kl", "clip_frac"]

lemma aggregate_keys (logs : List UpdateLog) :
    (aggregate logs).map Prod.fst = diagnostic_keys := rfl

/-- C9: with at least one configured epoch, learn returns a diagnostics
mapping whose keys are exactly the eight aggregated update-step
diagnostics (policy gradient norm, value gradient norm, policy loss,
policy entropy, value loss, explained variance, approximate KL, clip
fraction), preceded by current_lr exactly when LR scheduling is enabled
(all nine keys then); the values are real scalars of the model, hence
finite. -/
theorem learn_diagnostic_keys {S MB : Type} (cfg : Config)
    (step : S → MB → UpdateLog × S) (batches : Nat → List MB)
    (trajLens : List Nat) (lr : ℝ) (s : S) (tt : Nat) (k : Nat)
    (hk : cfg.num_epochs = k + 1) :
    ∃ out, (learn cfg step batches trajLens lr s tt).1 = Except.ok out ∧
      out.map Prod.fst
        = if cfg.use_lr_scheduler then "current_lr" :: diagnostic_keys
          else diagnostic_keys := by
  unfold learn epochLoop
  rw [hk, epochLoopFrom_succ]
  cases h : cfg.use_lr_scheduler <;> exact ⟨_, rfl, by simp [h, aggregate_keys]⟩

/-- Witness for C9: one learn call with a single trajectory of length 4,
1 configured epoch, one minibatch covering the whole batch, and LR
scheduling enabled produces a mapping with all nine keys. -/
theorem learn_diagnostic_keys_witness :
    (Config.mk 1 true).num_epochs = 0 + 1 ∧
      ∃ out, (learn ⟨1, true⟩ countingStep (fun _ => [()]) [4] 1 0 0).1
          = Except.ok out ∧
        out.map Prod.fst
          = if (Config.mk 1 true).use_lr_scheduler then
              "current_lr" :: diagnostic_keys
            else diagnostic_keys :=
  ⟨rfl, learn_diagnostic_keys ⟨1, true⟩ countingStep (fun _ => [()])
    [4] 1 0 0 0 rfl⟩

/-- C10: when train.num_epochs is 0 the epoch loop body never executes,
the logs variable is never assigned, and the aggregation of line 186
raises a NameError: learn errors instead of returning a diagnostics
mapping. -/
theorem learn_zero_epochs_raises {S MB : Type} (cfg : Config)
    (step : S → MB → UpdateLog × S) (batches : Nat → List MB)
    (trajLens : List Nat) (lr : ℝ) (s : S) (tt : Nat)
    (h : cfg.num_epochs = 0) :
    (learn cfg step batches trajLens lr s tt).1
      = Except.error "NameError: logs is not defined" := by
  unfold learn epochLoop
  rw [h]
  rfl

/-- Witness for C10: a learn call configured with 0 epochs raises. -/
theorem learn_zero_epochs_raises_witness :
    (Config.mk 0 false).num_epochs = 0 ∧
      (learn ⟨0, false⟩ countingStep (fun _ => [()]) [3] 0 0 0).1
        = Except.error "NameError: logs is not defined" :=
  ⟨rfl, learn_zero_epochs_raises ⟨0, false⟩ countingStep (fun _ => [()])
    [3] 0 0 0 rfl⟩

/-- Abstraction of the torch distribution object returned by the policy
network's action head: a sampled action together with entropy and
log-probability queries (actions flattened to a single real). -/
structure ActionDist where
  sample : ℝ
  entropy : ℝ
  log_prob : ℝ → ℝ

/-- A value of the output mapping of choose_action: a distribution
object, a tensor scalar, or the detached plain-array copy produced by
numpify. -/
inductive OutVal
  | dist : ActionDist → OutVal
  | tensor : ℝ → OutVal
  | array : ℝ → OutVal

/-- The Agent state visible to choose_action: the two networks (as
observation-indexed functions with their parameters baked in), the two
optimizers' internal states (abstract types PO and VO), and the
total-timestep counter. -/
structure AgentState (PO VO : Type) where
  policy : List ℝ → ActionDist
  value : List ℝ → ℝ
  policy_optimizer : PO
  value_optimizer : VO
  total_timestep : Nat

/-- Embedding of Agent.choose_action, agent.py lines 95-110: the output
mapping is built in the code's insertion order from pure forward passes
of the policy and value networks; the method body contains no assignment
to the agent, so the agent state component of the result is the input
state. -/
def choose_action {PO VO : Type} (agent : AgentState PO VO) (obs : List ℝ) :
    List (String × OutVal) × AgentState PO VO :=
  ([("action_dist", OutVal.dist (agent.policy obs)),
    ("entropy", OutVal.tensor (agent.policy obs).entropy),
    ("action", OutVal.tensor (agent.policy obs).sample),
    ("raw_action", OutVal.array (agent.policy obs).sample),
    ("action_logprob",
      OutVal.tensor ((agent.policy obs).log_prob (agent.policy obs).sample)),
    ("V", OutVal.tensor (agent.value obs))],
   agent)

/-- C8: choose_action performs only forward passes: every component of
the Agent state (policy network, value network, both optimizer states,
total-timestep counter) is identical before and after the call, and the
returned mapping has exactly the keys action_dist, entropy, action,
raw_action, action_logprob, V. -/
theorem choose_action_pure_and_keys {PO VO : Type} (agent : AgentState PO VO)
    (obs : List ℝ) :
    (choose_action agent obs).2 = agent ∧
      ((choose_action agent obs).2.policy = agent.policy ∧
        (choose_action agent obs).2.value = agent.value ∧
        (choose_action agent obs).2.policy_optimizer = agent.policy_optimizer ∧
        (choose_action agent obs).2.value_optimizer = agent.value_optimizer ∧
        (choose_action agent obs).2.total_timestep = agent.total_timestep) ∧
      (choose_action agent obs).1.map Prod.fst
        = ["action_dist", "entropy", "action", "raw_action",
           "action_logprob", "V"] :=
  ⟨rfl, ⟨rfl, rfl, rfl, rfl, rfl⟩, rfl⟩

/-- Gym action-space kinds as dispatched on by the Actor constructor:
Discrete(n), Box (with its flat dimensionality), or any other space
kind. -/
inductive ActionSpace
  | discrete : Nat → ActionSpace
  | box : Nat → ActionSpace
  | other : ActionSpace

/-- Whether the action space is a Discrete space. -/
def ActionSpace.isDiscrete : ActionSpace → Bool
  | .discrete _ => true
  | _ => false

/-- Whether the action space is a continuous Box space. -/
def ActionSpace.isBox : ActionSpace → Bool
  | .box _ => true
  | _ => false

/-- The action head assigned by the Actor constructor:
CategoricalHead(feature_dim, n) for Discrete spaces,
DiagGaussianHead(feature_dim, flatdim, std0) for Box spaces. -/
inductive ActionHead
  | categorical : Nat → Nat → ActionHead
  | diagGaussian : Nat → Nat → ℝ → ActionHead

/-- The Actor field relevant to the head dispatch: action_head is an
attribute of the object only if one of the two branches assigned it. -/
structure ActorNet where
  action_head : Option ActionHead

/-- Embedding of the action-head dispatch in the Actor constructor,
agent.py lines 43-46: if the space is Discrete assign a CategoricalHead,
elif it is a Box assign a DiagGaussianHead; there is no else branch and
no raise statement, so construction always completes, leaving
action_head unassigned (none) for every other space kind.  The Except
channel records exceptions raised during construction; none is. -/
def Actor_init (feature_dim : Nat) (std0 : ℝ) (space : ActionSpace) :
    Except String ActorNet :=
  Except.ok
    { action_head :=
        match space with
        | .discrete n => some (ActionHead.categorical feature_dim n)
        | .box d => some (ActionHead.diagGaussian feature_dim d std0)
        | .other => none }

/-- Embedding of the head application in Actor.forward, agent.py line
53: reading self.action_head raises an AttributeError at the first
forward pass when the constructor never assigned the attribute. -/
def Actor_forward_head (a : ActorNet) : Except String ActionHead :=
  match a.action_head with
  | none =>
    Except.error "AttributeError: Actor object has no attribute action_head"
  | some h => Except.ok h

/-- C2 counterexample: for an action space that is neither Discrete nor
Box, constructing an Actor raises nothing: construction returns a built
Actor (with no action head), so no fatal configuration error occurs at
construction time, refuting the claim as stated. -/
theorem actor_init_unsupported_counterexample :
    Actor_init 64 1 ActionSpace.other = Except.ok { action_head := none } ∧
      ¬ ∃ e, Actor_init 64 1 ActionSpace.other = Except.error e := by
  refine ⟨rfl, ?_⟩
  rintro ⟨e, h⟩
  simp [Actor_init] at h

/-- C2 amended: for every action space that is neither Discrete nor Box,
Actor construction succeeds without raising, leaving the action head
unassigned; the fatal error surfaces only later, when a forward pass
first reads the missing action_head attribute. -/
theorem actor_init_unsupported_defers_failure (feature_dim : Nat) (std0 : ℝ)
    (space : ActionSpace) (h1 : space.isDiscrete = false)
    (h2 : space.isBox = false) :
    Actor_init feature_dim std0 space = Except.ok { action_head := none } ∧
      ∃ e, Actor_forward_head { action_head := none } = Except.error e := by
  cases space with
  | discrete n => simp [ActionSpace.isDiscrete] at h1
  | box d => simp [ActionSpace.isBox] at h2
  | other => exact ⟨rfl, ⟨_, rfl⟩⟩

/-- Witness for C2 (amended) at the unsupported space kind. -/
theorem actor_init_unsupported_defers_failure_witness :
    (ActionSpace.other.isDiscrete = false ∧ ActionSpace.other.isBox = false) ∧
      (Actor_init 64 1 ActionSpace.other = Except.ok { action_head := none } ∧
        ∃ e, Actor_forward_head { action_head := none } = Except.error e) :=
  ⟨⟨rfl, rfl⟩, actor_init_unsupported_defers_failure 64 1 ActionSpace.other rfl rfl⟩

/-- Witness for C7 at the concrete minibatch lp = [1/2, -1/3],
A = [2, 4], eps = 1/5. -/
theorem ratio_one_policy_loss_neg_mean_adv_witness :
    ([(2 : ℝ), 4].length = [(1 : ℝ)/2, -1/3].length ∧ (0 : ℝ) ≤ 1/5) ∧
      (prob_ratios [(1 : ℝ)/2, -1/3] [(1 : ℝ)/2, -1/3]
          = List.replicate ([(1 : ℝ)/2, -1/3].length) 1 ∧
        policy_loss (1/5) [(1 : ℝ)/2, -1/3] [(1 : ℝ)/2, -1/3] [(2 : ℝ), 4]
          = -torchMean [(2 : ℝ), 4]) :=
  ⟨⟨by simp, by norm_num⟩,
    ratio_one_policy_loss_neg_mean_adv (1/5) [(1 : ℝ)/2, -1/3] [(2 : ℝ), 4]
      (by simp) (by norm_num)⟩

end
